import Mathlib

/-!
Shallow embedding of the figma-to-html-css pipeline core:
normalization (`normalizedTree.ts`), classification (`classifyNode.ts`)
and emission (`renderCSS.ts`, the markup builder, `utils/render.ts`).

JS numbers are modelled as exact rationals (`ℚ`); the non-finite JS
values (NaN, ±Infinity) are modelled explicitly where the source tests
`Number.isFinite` / `typeof x === "number"`.  The floating-point atan2
used by the gradient-angle computation is modelled over the reals in a
dedicated section.
-/

namespace Figma

/-- A JS number: either a finite value (modelled exactly as a rational)
or one of the non-finite values NaN, Infinity, -Infinity. -/
inductive JsNumber where
  | fin (q : ℚ)
  | nan
  | inf
  | ninf
deriving DecidableEq

/-- A JS value as consumed by the numeric coercion `toNum`:
either a value of type number, or a non-number value together with the
number `Number(value)` coerces it to (e.g. `Number("5") = 5`,
`Number(undefined) = NaN`, `Number({}) = NaN`). A missing field
(`undefined`) is modelled as `Option.none` at the use sites. -/
inductive JsVal where
  | num (x : JsNumber)
  | other (coerced : JsNumber)
deriving DecidableEq

/-- `toNum` from `normalizedTree.ts`:
`const n = typeof input === "number" ? input : Number(input);
 return Number.isFinite(n) ? n : fallback;`
A missing field (`undefined`) coerces to NaN, hence the fallback. -/
def toNum (input : Option JsVal) (fallback : ℚ) : ℚ :=
  match input with
  | none => fallback
  | some (.num (.fin q)) => q
  | some (.num _) => fallback
  | some (.other (.fin q)) => q
  | some (.other _) => fallback

/-- `clamp01` from `utils/render.ts`: `Math.max(0, Math.min(1, n))`,
with JS min/max semantics on the non-finite values
(`Math.min(1, NaN) = NaN`, `Math.min(1, Infinity) = 1`, …). -/
def clamp01 : JsNumber → JsNumber
  | .fin q => .fin (max 0 (min 1 q))
  | .nan => .nan
  | .inf => .fin 1
  | .ninf => .fin 0

/-- JS `Math.round`: round half towards positive infinity. -/
def jsRound (q : ℚ) : ℤ := ⌊q + 1/2⌋

/-- Decimal expansion digits of `num/den` (`num < den`), up to `fuel`
digits, stopping at a zero remainder. -/
def decDigits : Nat → Nat → Nat → List Char
  | 0, _, _ => []
  | _ + 1, 0, _ => []
  | fuel + 1, r, d =>
      let r10 := r * 10
      Char.ofNat (48 + r10 / d) :: decDigits fuel (r10 % d) d

/-- Decimal rendering of a rational, modelling JS number-to-string
conversion on the terminating decimals the pipeline produces
(`1.5 ↦ "1.5"`, `2 ↦ "2"`, `-0.2 ↦ "-0.2"`). -/
def qToStr (q : ℚ) : String :=
  let sgn := if q < 0 then "-" else ""
  let n := q.num.natAbs
  let d := q.den
  let frs := decDigits 24 (n % d) d
  sgn ++ toString (n / d) ++ (if frs.isEmpty then "" else "." ++ String.mk frs)

/-- JS number-to-string for a possibly non-finite number. -/
def jsNumToStr : JsNumber → String
  | .fin q => qToStr q
  | .nan => "NaN"
  | .inf => "Infinity"
  | .ninf => "-Infinity"

/-- `px` from `utils/render.ts`: `${Math.round(n * 1000) / 1000}px`. -/
def px (n : ℚ) : String :=
  qToStr ((jsRound (n * 1000) : ℚ) / 1000) ++ "px"

-- ---------------------------------------------------------------------------
-- Normalized data model (`type/normalized.ts`)
-- ---------------------------------------------------------------------------

/-- 4-channel color, channels normalized to 0..1.  The alpha channel may
carry a non-finite number when a fill-level `opacity` override is a
non-finite JS number (it bypasses `toNum`). -/
structure RGBA where
  r : ℚ
  g : ℚ
  b : ℚ
  a : JsNumber
deriving DecidableEq

structure ColorStop where
  position : ℚ
  color : RGBA
deriving DecidableEq

/-- `Fill` tagged union from `type/normalized.ts`. Angles in degrees. -/
inductive Fill where
  | solid (color : RGBA)
  | linearGradient (stops : List ColorStop) (angle : ℚ)
  | radialGradient (stops : List ColorStop)
  | conicGradient (stops : List ColorStop) (angle : ℚ)
  | image (imageRef : String) (scaleMode : String)
deriving DecidableEq

/-- The `kind` discriminant string of a fill. -/
def Fill.kind : Fill → String
  | .solid _ => "solid"
  | .linearGradient _ _ => "linearGradient"
  | .radialGradient _ => "radialGradient"
  | .conicGradient _ _ => "conicGradient"
  | .image _ _ => "image"

structure StrokeGradient where
  stops : List ColorStop
  angle : ℚ
deriving DecidableEq

/-- Normalized stroke as built by `mapStrokes` (`kind` is `"solid"` or
`"gradient"`). -/
structure Stroke where
  kind : String
  alignment : String
  width : ℚ
  color : Option RGBA
  gradient : Option StrokeGradient
  dashPattern : Option (List ℚ)
deriving DecidableEq

/-- Normalized effect: shadows carry offset/blur/spread/color, blurs
only the blur radius. -/
structure Effect where
  type : String
  x : Option ℚ
  y : Option ℚ
  blur : Option ℚ
  spread : Option ℚ
  color : Option RGBA
deriving DecidableEq

structure Typography where
  fontFamily : String
  fontPostScriptName : Option String
  fontStyle : Option String
  fontWeight : ℚ
  fontSize : ℚ
  lineHeightPx : ℚ
  letterSpacing : ℚ
  textCase : String
  textDecoration : String
  textAlignHorizontal : String
deriving DecidableEq

inductive BorderRadius where
  | uniform (r : ℚ)
  | corners (topLeft topRight bottomRight bottomLeft : ℚ)
deriving DecidableEq

structure Padding where
  top : ℚ
  right : ℚ
  bottom : ℚ
  left : ℚ
deriving DecidableEq

/-- `number | "auto"` height of a flex container. -/
inductive QAuto where
  | num (q : ℚ)
  | auto
deriving DecidableEq

/-- `LayoutModel`: a flex container, an in-flow block item, or an
absolutely positioned box (the three shapes `mapLayout` returns). -/
inductive LayoutModel where
  | flex (direction : String) (padding : Padding) (gap : ℚ)
      (align : Option String) (justify : Option String)
      (width : ℚ) (height : QAuto)
  | block (width height : ℚ)
  | absolute (x y width height : ℚ)
deriving DecidableEq

structure StyleModel where
  fills : List Fill
  strokes : List Stroke
  borderRadius : Option BorderRadius
  effects : List Effect
  typography : Option Typography
  opacity : Option ℚ
  blendMode : Option String
  hasMask : Bool
deriving DecidableEq

inductive RenderKind where
  | frame
  | text
  | vector
  | image
deriving DecidableEq

structure TextSpan where
  text : String
deriving DecidableEq

/-- `NormalizedNode`. -/
inductive NormalizedNode where
  | mk (id name : String) (type : RenderKind) (layout : LayoutModel)
      (style : StyleModel) (text : Option String)
      (spans : Option (List TextSpan)) (children : List NormalizedNode)

def NormalizedNode.id : NormalizedNode → String
  | .mk i _ _ _ _ _ _ _ => i

def NormalizedNode.name : NormalizedNode → String
  | .mk _ n _ _ _ _ _ _ => n

def NormalizedNode.type : NormalizedNode → RenderKind
  | .mk _ _ t _ _ _ _ _ => t

def NormalizedNode.layout : NormalizedNode → LayoutModel
  | .mk _ _ _ l _ _ _ _ => l

def NormalizedNode.style : NormalizedNode → StyleModel
  | .mk _ _ _ _ s _ _ _ => s

def NormalizedNode.text : NormalizedNode → Option String
  | .mk _ _ _ _ _ t _ _ => t

def NormalizedNode.spans : NormalizedNode → Option (List TextSpan)
  | .mk _ _ _ _ _ _ sp _ => sp

def NormalizedNode.children : NormalizedNode → List NormalizedNode
  | .mk _ _ _ _ _ _ _ cs => cs

-- ---------------------------------------------------------------------------
-- Capability classifier (`classifyNode.ts`)
-- ---------------------------------------------------------------------------

/-- `RenderAs`: `"html" | "html-text" | "svg"`. -/
inductive RenderAs where
  | html
  | htmlText
  | svg
deriving DecidableEq

/-- `needsSvgForStrokes`: multiple strokes, non-solid stroke, non-CENTER
alignment or a non-empty dash pattern. -/
def needsSvgForStrokes (strokes : List Stroke) : Bool :=
  if strokes.isEmpty then false
  else if 1 < strokes.length then true
  else
    match strokes with
    | [] => false
    | s :: _ =>
        if s.kind ≠ "solid" then true
        else if s.alignment ≠ "CENTER" then true
        else
          match s.dashPattern with
          | some ds => decide (0 < ds.length)
          | none => false

/-- `needsSvgForFills`: only an unknown fill kind requires SVG; every
kind of the closed `Fill` union is allowed, so this is always `false`
(the `default` branch of the source `switch` is unreachable for the
declared `Fill` type). -/
def needsSvgForFills (fills : List Fill) : Bool :=
  if fills.isEmpty then false
  else
    fills.any fun f =>
      match f with
      | .solid _ => false
      | .image _ _ => false
      | .linearGradient _ _ => false
      | .radialGradient _ => false
      | .conicGradient _ _ => false

/-- `hasUnsafeBlendMode`: anything except NORMAL / PASS_THROUGH. -/
def hasUnsafeBlendMode (blendMode : Option String) : Bool :=
  match blendMode with
  | none => false
  | some m => if m = "NORMAL" ∨ m = "PASS_THROUGH" then false else true

/-- `needsSvgForEffects`: any blur effect, or more than one shadow. -/
def needsSvgForEffects (effects : List Effect) : Bool :=
  if effects.isEmpty then false
  else
    let shadowCount :=
      (effects.filter fun e =>
        e.type = "DROP_SHADOW" ∨ e.type = "INNER_SHADOW").length
    let hasBlur :=
      effects.any fun e =>
        e.type = "LAYER_BLUR" ∨ e.type = "BACKGROUND_BLUR"
    if hasBlur then true
    else if 1 < shadowCount then true
    else false

/-- `classifyNode`: per-node render strategy, a function of the node's
`type` and `style` only. -/
def classifyNode (node : NormalizedNode) : RenderAs :=
  let fills := node.style.fills
  let strokes := node.style.strokes
  let blendMode := node.style.blendMode
  let hasMask := node.style.hasMask
  let effects := node.style.effects
  if node.type = .text then
    let needsSvg := hasMask || needsSvgForStrokes strokes ||
      needsSvgForFills fills || needsSvgForEffects effects ||
      hasUnsafeBlendMode blendMode
    if needsSvg then .svg else .htmlText
  else
    if hasMask then .svg
    else if needsSvgForStrokes strokes then .svg
    else if needsSvgForFills fills then .svg
    else if needsSvgForEffects effects then .svg
    else if hasUnsafeBlendMode blendMode then .svg
    else .html

/-- `ClassifiedNode`: a normalized node plus its render strategy, with
classified children. -/
inductive ClassifiedNode where
  | mk (id name : String) (type : RenderKind) (layout : LayoutModel)
      (style : StyleModel) (text : Option String)
      (spans : Option (List TextSpan)) (renderAs : RenderAs)
      (children : List ClassifiedNode)

def ClassifiedNode.id : ClassifiedNode → String
  | .mk i _ _ _ _ _ _ _ _ => i

def ClassifiedNode.name : ClassifiedNode → String
  | .mk _ n _ _ _ _ _ _ _ => n

def ClassifiedNode.type : ClassifiedNode → RenderKind
  | .mk _ _ t _ _ _ _ _ _ => t

def ClassifiedNode.layout : ClassifiedNode → LayoutModel
  | .mk _ _ _ l _ _ _ _ _ => l

def ClassifiedNode.style : ClassifiedNode → StyleModel
  | .mk _ _ _ _ s _ _ _ _ => s

def ClassifiedNode.text : ClassifiedNode → Option String
  | .mk _ _ _ _ _ t _ _ _ => t

def ClassifiedNode.spans : ClassifiedNode → Option (List TextSpan)
  | .mk _ _ _ _ _ _ sp _ _ => sp

def ClassifiedNode.renderAs : ClassifiedNode → RenderAs
  | .mk _ _ _ _ _ _ _ r _ => r

def ClassifiedNode.children : ClassifiedNode → List ClassifiedNode
  | .mk _ _ _ _ _ _ _ _ cs => cs

/-- `classifyTree`: classify a node and, recursively, its children. -/
def classifyTree : NormalizedNode → ClassifiedNode
  | .mk i n t l st tx sp cs =>
      .mk i n t l st tx sp (classifyNode (.mk i n t l st tx sp cs))
        (cs.attach.map fun c => classifyTree c.1)
decreasing_by
  have h := List.sizeOf_lt_of_mem c.2
  simp only [NormalizedNode.mk.sizeOf_spec]
  omega

/-- Unfolding equation for `classifyTree` in terms of a plain `List.map`. -/
theorem classifyTree_mk (i n : String) (t : RenderKind) (l : LayoutModel)
    (st : StyleModel) (tx : Option String) (sp : Option (List TextSpan))
    (cs : List NormalizedNode) :
    classifyTree (.mk i n t l st tx sp cs) =
      .mk i n t l st tx sp (classifyNode (.mk i n t l st tx sp cs))
        (cs.map classifyTree) := by
  rw [classifyTree]
  simp [List.attach_map_val]

-- ---------------------------------------------------------------------------
-- Raw input model (the fields `normalizedTree.ts` reads off a raw node)
-- ---------------------------------------------------------------------------

/-- Raw `absoluteBoundingBox`; every field may be missing or malformed. -/
structure RawBox where
  x : Option JsVal
  y : Option JsVal
  width : Option JsVal
  height : Option JsVal

structure RawColor where
  r : Option JsVal
  g : Option JsVal
  b : Option JsVal
  a : Option JsVal

structure RawStop where
  position : Option JsVal
  color : Option RawColor
  opacity : Option JsVal

/-- A raw paint entry, covering the fields read from both fill and
stroke entries.  `gradientTransform` rows are JS values (a non-number
entry is modelled by `JsVal.other`). -/
structure RawPaint where
  type : Option String
  visible : Option Bool
  opacity : Option JsVal
  color : Option RawColor
  gradientStops : Option (List RawStop)
  imageRef : Option String
  scaleMode : Option String
  gradientTransform : Option (List (List JsVal))
  weight : Option JsVal
  strokeWeight : Option JsVal
  width : Option JsVal
  alignment : Option String
  dashPattern : Option (List ℚ)

structure RawOffset where
  x : Option JsVal
  y : Option JsVal

structure RawEffect where
  type : Option String
  offset : Option RawOffset
  radius : Option JsVal
  spread : Option JsVal
  color : Option RawColor
  opacity : Option JsVal

/-- Raw text `style` record. -/
structure RawTextStyle where
  fontFamily : Option String
  fontPostScriptName : Option String
  fontStyle : Option String
  fontWeight : Option JsVal
  fontSize : Option JsVal
  lineHeightPx : Option JsVal
  letterSpacing : Option JsVal
  textCase : Option String
  textDecoration : Option String
  textAlignHorizontal : Option String

/-- The per-node raw attributes read by the normalizer. -/
structure RawData where
  id : Option String
  name : Option String
  type : Option String
  visible : Option Bool
  absoluteBoundingBox : Option RawBox
  layoutMode : Option String
  layoutPositioning : Option String
  paddingTop : Option JsVal
  paddingRight : Option JsVal
  paddingBottom : Option JsVal
  paddingLeft : Option JsVal
  itemSpacing : Option JsVal
  primaryAxisAlignItems : Option String
  counterAxisAlignItems : Option String
  fills : Option (List RawPaint)
  strokes : Option (List RawPaint)
  effects : Option (List RawEffect)
  opacity : Option JsVal
  blendMode : Option String
  isMask : Option Bool
  cornerRadius : Option JsVal
  rectangleCornerRadii : Option (List (Option JsVal))
  style : Option RawTextStyle
  characters : Option String

/-- A raw tree node: attributes plus a child list (`getArray` turns a
missing or non-array `children` field into `[]`, modelled by the list
being empty). -/
inductive RawNode where
  | mk (data : RawData) (children : List RawNode)

def RawNode.data : RawNode → RawData
  | .mk d _ => d

def RawNode.children : RawNode → List RawNode
  | .mk _ cs => cs

-- ---------------------------------------------------------------------------
-- Normalizer (`normalizedTree.ts`)
-- ---------------------------------------------------------------------------

/-- Aggregate statistics threaded through the normalization walk. -/
structure NStats where
  nodesTotal : Nat
  frames : Nat
  texts : Nat
  vectors : Nat
  images : Nat
  gradients : Nat
  masks : Nat
deriving DecidableEq

def NStats.zero : NStats := ⟨0, 0, 0, 0, 0, 0, 0⟩

/-- Warnings and statistics accumulator (the two mutable collections of
the source, threaded explicitly). -/
def AccT := List String × NStats

/-- `typeof v === "number" ? v : undefined`. -/
def jsNumberFilter : Option JsVal → Option JsVal
  | some (.num x) => some (.num x)
  | _ => none

/-- `mapColor`: channels via `toNum` (fallback 0), alpha from the
number-typed `opacity` override if present, else `toNum(color?.a, 1)`. -/
def mapColor (color : Option RawColor) (opacity : Option JsVal) : RGBA :=
  { r := toNum (color.bind RawColor.r) 0
    g := toNum (color.bind RawColor.g) 0
    b := toNum (color.bind RawColor.b) 0
    a := match opacity with
         | some (.num x) => x
         | _ => .fin (toNum (color.bind RawColor.a) 1) }

/-- `mapStops`. -/
def mapStops (stops : Option (List RawStop)) : List ColorStop :=
  (stops.getD []).map fun s =>
    { position := toNum s.position 0, color := mapColor s.color s.opacity }

/-- `mapFills`, threading the warnings list; `ga` supplies the
gradient-angle number computed by the (floating-point) angle routine,
whose real-valued semantics is modelled separately by
`mapGradientAngle`. -/
def mapFills (ga : RawPaint → ℚ) :
    List RawPaint → List String → List Fill × List String
  | [], w => ([], w)
  | f :: rest, w =>
      let type := f.type.getD ""
      let visible := f.visible.getD true
      if ¬ visible then mapFills ga rest w
      else if type = "SOLID" then
        let opacity := jsNumberFilter f.opacity
        let (fs, w') := mapFills ga rest w
        (.solid (mapColor f.color opacity) :: fs, w')
      else if type = "GRADIENT_LINEAR" then
        let (fs, w') := mapFills ga rest w
        (.linearGradient (mapStops f.gradientStops) (ga f) :: fs, w')
      else if type = "GRADIENT_RADIAL" then
        let (fs, w') := mapFills ga rest w
        (.radialGradient (mapStops f.gradientStops) :: fs, w')
      else if type = "GRADIENT_ANGULAR" ∨ type = "GRADIENT_CONIC" then
        let (fs, w') := mapFills ga rest w
        (.conicGradient (mapStops f.gradientStops) (ga f) :: fs, w')
      else if type = "IMAGE" then
        let imageRef := f.imageRef.getD ""
        let scaleMode :=
          match f.scaleMode with
          | some "FIT" => "FIT"
          | some "TILE" => "TILE"
          | some "CROP" => "CROP"
          | _ => "FILL"
        let (fs, w') := mapFills ga rest w
        (.image imageRef scaleMode :: fs, w')
      else
        mapFills ga rest (w ++ ["Unsupported fill type: " ++ type])

/-- `mapStrokes`, threading the warnings list. -/
def mapStrokes (ga : RawPaint → ℚ) :
    List RawPaint → List String → List Stroke × List String
  | [], w => ([], w)
  | s :: rest, w =>
      let visible := s.visible.getD true
      if ¬ visible then mapStrokes ga rest w
      else
        let width := toNum (s.weight <|> s.strokeWeight <|> s.width) 1
        let alignment := s.alignment.getD "CENTER"
        let dashPattern := s.dashPattern
        if s.type = some "SOLID" then
          let opacity := jsNumberFilter s.opacity
          let (ss, w') := mapStrokes ga rest w
          ({ kind := "solid", alignment := alignment, width := width
             color := some (mapColor s.color opacity), gradient := none
             dashPattern := dashPattern } :: ss, w')
        else if (s.type.getD "").startsWith "GRADIENT" then
          let (ss, w') := mapStrokes ga rest w
          ({ kind := "gradient", alignment := alignment, width := width
             color := none
             gradient := some ⟨mapStops s.gradientStops, ga s⟩
             dashPattern := dashPattern } :: ss, w')
        else
          mapStrokes ga rest
            (w ++ ["Unsupported stroke type: " ++ s.type.getD ""])

/-- `mapEffects`: shadows keep offset/blur/spread/color, blurs keep only
the blur radius, anything else is silently skipped. -/
def mapEffects : List RawEffect → List Effect
  | [] => []
  | e :: rest =>
      let type := e.type.getD ""
      if type = "DROP_SHADOW" ∨ type = "INNER_SHADOW" then
        { type := type
          x := some (toNum (e.offset.bind RawOffset.x) 0)
          y := some (toNum (e.offset.bind RawOffset.y) 0)
          blur := some (toNum e.radius 0)
          spread := some (toNum e.spread 0)
          color := some (mapColor e.color e.opacity) } :: mapEffects rest
      else if type = "LAYER_BLUR" ∨ type = "BACKGROUND_BLUR" then
        { type := type, x := none, y := none
          blur := some (toNum e.radius 0), spread := none
          color := none } :: mapEffects rest
      else mapEffects rest

/-- `mapTypography` (`node.style ?? {}` plus per-field defaults). -/
def mapTypography (node : RawData) : Typography :=
  let s := node.style
  { fontFamily := (s.bind RawTextStyle.fontFamily).getD "system-ui"
    fontPostScriptName := s.bind RawTextStyle.fontPostScriptName
    fontStyle := s.bind RawTextStyle.fontStyle
    fontWeight := toNum (s.bind RawTextStyle.fontWeight) 0
    fontSize := toNum (s.bind RawTextStyle.fontSize) 14
    lineHeightPx := toNum (s.bind RawTextStyle.lineHeightPx) 0
    letterSpacing := toNum (s.bind RawTextStyle.letterSpacing) 0
    textCase := (s.bind RawTextStyle.textCase).getD "ORIGINAL"
    textDecoration := (s.bind RawTextStyle.textDecoration).getD "NONE"
    textAlignHorizontal :=
      (s.bind RawTextStyle.textAlignHorizontal).getD "LEFT" }

/-- `mapRadius`: a finite numeric `cornerRadius` wins; otherwise the
per-corner array, kept only when some corner is non-zero. -/
def mapRadius (node : RawData) : Option BorderRadius :=
  match node.cornerRadius with
  | some (.num (.fin q)) => some (.uniform q)
  | _ =>
      let entries := node.rectangleCornerRadii.getD []
      let topLeft := toNum (entries.getD 0 none) 0
      let topRight := toNum (entries.getD 1 none) 0
      let bottomRight := toNum (entries.getD 2 none) 0
      let bottomLeft := toNum (entries.getD 3 none) 0
      if topLeft ≠ 0 ∨ topRight ≠ 0 ∨ bottomRight ≠ 0 ∨ bottomLeft ≠ 0 then
        some (.corners topLeft topRight bottomRight bottomLeft)
      else none

/-- `mapAlign` (counter-axis). -/
def mapAlign (counter : Option String) : Option String :=
  let c := counter.getD ""
  if c = "MIN" then some "start"
  else if c = "CENTER" then some "center"
  else if c = "MAX" then some "end"
  else if c = "SPACE_BETWEEN" then some "stretch"
  else none

/-- `mapJustify` (primary axis). -/
def mapJustify (primary : Option String) : Option String :=
  let p := primary.getD ""
  if p = "MIN" then some "start"
  else if p = "CENTER" then some "center"
  else if p = "MAX" then some "end"
  else if p = "SPACE_BETWEEN" then some "space-between"
  else none

/-- `mapLayout`: auto-layout frame → flex container; child of an
auto-layout frame not opted out → block flow item; otherwise absolute,
with coordinates relative to the parent box origin. -/
def mapLayout (node : RawData) (parentBox : Option RawBox)
    (parentLayoutMode : String) : LayoutModel :=
  let boundingBox := node.absoluteBoundingBox
  let layoutMode := node.layoutMode.getD "NONE"
  let layoutPositioning := node.layoutPositioning.getD "AUTO"
  let nodeHasAuto := layoutMode = "HORIZONTAL" ∨ layoutMode = "VERTICAL"
  let parentHasAuto :=
    parentLayoutMode = "HORIZONTAL" ∨ parentLayoutMode = "VERTICAL"
  if nodeHasAuto then
    let direction := if layoutMode = "HORIZONTAL" then "row" else "column"
    let padding : Padding :=
      ⟨toNum node.paddingTop 0, toNum node.paddingRight 0,
        toNum node.paddingBottom 0, toNum node.paddingLeft 0⟩
    let gap := toNum node.itemSpacing 0
    let align := mapAlign node.counterAxisAlignItems
    let justify := mapJustify node.primaryAxisAlignItems
    let width := toNum (boundingBox.bind RawBox.width) 0
    let height0 := toNum (boundingBox.bind RawBox.height) 0
    let height := if height0 = 0 then QAuto.auto else QAuto.num height0
    .flex direction padding gap align justify width height
  else if parentHasAuto ∧ layoutPositioning ≠ "ABSOLUTE" then
    .block (toNum (boundingBox.bind RawBox.width) 0)
      (toNum (boundingBox.bind RawBox.height) 0)
  else
    let absX := toNum (boundingBox.bind RawBox.x) 0
    let absY := toNum (boundingBox.bind RawBox.y) 0
    let parentX := toNum (parentBox.bind RawBox.x) 0
    let parentY := toNum (parentBox.bind RawBox.y) 0
    .absolute (absX - parentX) (absY - parentY)
      (toNum (boundingBox.bind RawBox.width) 0)
      (toNum (boundingBox.bind RawBox.height) 0)

/-- `mapType`: the fixed raw-kind table; unknown kinds map to `none`
("not renderable"). -/
def mapType (node : RawData) : Option RenderKind :=
  let figmaType := node.type.getD ""
  if figmaType = "FRAME" ∨ figmaType = "GROUP" ∨ figmaType = "COMPONENT" ∨
      figmaType = "INSTANCE" ∨ figmaType = "SECTION" then some .frame
  else if figmaType = "TEXT" then some .text
  else if figmaType = "VECTOR" ∨ figmaType = "LINE" ∨
      figmaType = "ELLIPSE" ∨ figmaType = "REGULAR_POLYGON" ∨
      figmaType = "STAR" ∨ figmaType = "BOOLEAN_OPERATION" then some .vector
  else if figmaType = "RECTANGLE" then
    let fills := node.fills.getD []
    if fills.any fun f => f.type.getD "" = "IMAGE" then some .image
    else some .frame
  else none

/-- `mapStyle`, threading warnings and the gradient/mask counters. -/
def mapStyle (ga : RawPaint → ℚ) (node : RawData) (acc : AccT) :
    StyleModel × AccT :=
  let (fills, w1) := mapFills ga (node.fills.getD []) acc.1
  let (strokes, w2) := mapStrokes ga (node.strokes.getD []) w1
  let borderRadius := mapRadius node
  let effects := mapEffects (node.effects.getD [])
  let typography :=
    if node.type = some "TEXT" then some (mapTypography node) else none
  let opacity := toNum node.opacity 1
  let blendMode :=
    match node.blendMode with
    | some b => if b = "" then none else some b
    | none => none
  let hasMask := node.isMask.getD false
  let stats1 :=
    if fills.any (fun f => f.kind.endsWith "Gradient") then
      { acc.2 with gradients := acc.2.gradients + 1 }
    else acc.2
  let stats2 :=
    if hasMask then { stats1 with masks := stats1.masks + 1 } else stats1
  ({ fills := fills, strokes := strokes, borderRadius := borderRadius
     effects := effects, typography := typography, opacity := some opacity
     blendMode := blendMode, hasMask := hasMask }, (w2, stats2))

/-- Per-kind statistics bump of `toNormalized`. -/
def bumpKind (t : RenderKind) (s : NStats) : NStats :=
  let s := if t = .text then { s with texts := s.texts + 1 } else s
  let s := if t = .vector then { s with vectors := s.vectors + 1 } else s
  let s := if t = .image then { s with images := s.images + 1 } else s
  if t = .frame then { s with frames := s.frames + 1 } else s

mutual

/-- `toNormalized`: maps one raw node; returns `none` (dropping the
whole subtree) when `mapType` yields no renderable kind. -/
def toNormalized (ga : RawPaint → ℚ) :
    RawNode → Option RawBox → String → AccT →
      Option NormalizedNode × AccT
  | .mk d cs, parentBox, parentLayoutMode, acc =>
      let acc1 : AccT :=
        (acc.1, { acc.2 with nodesTotal := acc.2.nodesTotal + 1 })
      let id := d.id.getD ""
      let name := d.name.getD ""
      match mapType d with
      | none => (none, acc1)
      | some type =>
          let acc2 : AccT := (acc1.1, bumpKind type acc1.2)
          let layout := mapLayout d parentBox parentLayoutMode
          let (style, acc3) := mapStyle ga d acc2
          let text :=
            if type = .text then some (d.characters.getD "") else none
          let thisBox := d.absoluteBoundingBox
          let thisLayoutMode := d.layoutMode.getD "NONE"
          let (children, acc4) :=
            toNormalizedChildren ga cs thisBox thisLayoutMode acc3
          (some (.mk id name type layout style text none children), acc4)

/-- The `children.map(...).filter(Boolean)` walk of `toNormalized`:
each child is normalized in order, dropped children contribute nothing
to the parent's child list. -/
def toNormalizedChildren (ga : RawPaint → ℚ) :
    List RawNode → Option RawBox → String → AccT →
      List NormalizedNode × AccT
  | [], _, _, acc => ([], acc)
  | c :: rest, parentBox, parentLayoutMode, acc =>
      let (n, acc1) := toNormalized ga c parentBox parentLayoutMode acc
      let (ns, acc2) :=
        toNormalizedChildren ga rest parentBox parentLayoutMode acc1
      (match n with
       | some node => node :: ns
       | none => ns, acc2)

end

/-- `isRenderable`: skips explicitly invisible nodes and the non-visual
top-level kinds. -/
def isRenderable (node : RawNode) : Bool :=
  let type := node.data.type.getD ""
  if node.data.visible = some false then false
  else if type = "SLICE" ∨ type = "GUIDE" ∨ type = "COMPONENT_SET" then
    false
  else true

structure NormalizationResult where
  frames : List NormalizedNode
  warnings : List String
  stats : NStats

/-- The inner page loop of `normalizeFile`. -/
def normalizePage (ga : RawPaint → ℚ) (children : List RawNode)
    (st : List NormalizedNode × AccT) : List NormalizedNode × AccT :=
  children.foldl
    (fun st child =>
      if ¬ isRenderable child then st
      else
        let (n, acc) := toNormalized ga child none "NONE" st.2
        (match n with
         | some node => st.1 ++ [node]
         | none => st.1, acc))
    st

/-- `normalizeFile`: iterate the document's pages and each page's
top-level children, keeping renderable frames. -/
def normalizeFile (ga : RawPaint → ℚ) (documentRoot : RawNode) :
    NormalizationResult :=
  let st0 : List NormalizedNode × AccT := ([], ([], NStats.zero))
  let res := documentRoot.children.foldl
    (fun st page => normalizePage ga page.children st) st0
  ⟨res.1, res.2.1, res.2.2⟩

-- ---------------------------------------------------------------------------
-- Emission utilities (`utils/render.ts`)
-- ---------------------------------------------------------------------------

/-- Characters kept verbatim by the `[^a-zA-Z0-9_-]` sanitizers. -/
def isSafeIdChar (c : Char) : Bool :=
  c.isAlphanum || c = '_' || c = '-'

/-- `id.replace(/[^a-zA-Z0-9_-]/g, "_")`. -/
def sanitizeId (s : String) : String :=
  String.mk (s.data.map fun c => if isSafeIdChar c then c else '_')

/-- `safeId` from `utils/render.ts`. -/
def safeId (id : String) : String := sanitizeId id

/-- `cssClass` from `utils/render.ts`: `n-` plus the sanitized id. -/
def cssClass (id : String) : String := "n-" ++ sanitizeId id

/-- One character of `escapeHtml`: the five escaped characters map to
their entities, everything else is kept. -/
def escapeChar (c : Char) : String :=
  if c = '&' then "&amp;"
  else if c = '<' then "&lt;"
  else if c = '>' then "&gt;"
  else if c = '"' then "&quot;"
  else if c = '\'' then "&#039;"
  else String.singleton c

/-- `escapeHtml` from `utils/render.ts`:
`s.replace(/[&<>"']/g, m => entity(m))`. -/
def escapeHtml (s : String) : String :=
  String.join (s.data.map escapeChar)

/-- `escaped.replace(/\n/g, "<br/>")` from the markup emitter. -/
def brify (s : String) : String :=
  String.join (s.data.map fun c =>
    if c = '\n' then "<br/>" else String.singleton c)

/-- `rgba` from `utils/render.ts`: channels scaled 0..1 → 0..255 and
rounded, alpha clamped to [0,1]. -/
def rgba (c : RGBA) : String :=
  "rgba(" ++ toString (jsRound (c.r * 255)) ++ "," ++
    toString (jsRound (c.g * 255)) ++ "," ++
    toString (jsRound (c.b * 255)) ++ "," ++
    jsNumToStr (clamp01 c.a) ++ ")"

/-- `gradientStopsToCss`: `color pos%` pairs joined by `", "`, with the
position rounded via `Math.round(position * 1000) / 10`. -/
def gradientStopsToCss (stops : List ColorStop) : String :=
  String.intercalate ", " (stops.map fun s =>
    rgba s.color ++ " " ++ qToStr ((jsRound (s.position * 1000) : ℚ) / 10) ++ "%")

/-- One background layer of `pushFill`'s `switch`; the `image` kind hits
the (dead) `default` branch, which pushes nothing. -/
def fillLayerOpt : Fill → Option String
  | .solid c => some (rgba c)
  | .linearGradient stops angle =>
      some ("linear-gradient(" ++ qToStr angle ++ "deg, " ++
        gradientStopsToCss stops ++ ")")
  | .radialGradient stops =>
      some ("radial-gradient(circle at center, " ++
        gradientStopsToCss stops ++ ")")
  | .conicGradient stops angle =>
      some ("conic-gradient(from " ++ qToStr angle ++ "deg at 50% 50%, " ++
        gradientStopsToCss stops ++ ")")
  | .image _ _ => none

/-- The `layers` loop of `pushFill`: iterate `usable` from the LAST fill
down to the first, pushing one CSS background layer per fill. -/
def fillLayers : List Fill → List String
  | [] => []
  | f :: rest => fillLayers rest ++ (fillLayerOpt f).toList

/-- `pushFill` from `utils/render.ts`: image fills are filtered out, the
remaining fills are emitted as background layers in reverse declaration
order, joined into one `background:` declaration. -/
def pushFill (rules : List String) (fills : List Fill) : List String :=
  if fills.isEmpty then rules
  else
    let usable := fills.filter fun f => f.kind ≠ "image"
    if usable.isEmpty then rules
    else
      let layers := fillLayers usable
      if layers.isEmpty then rules
      else rules ++ ["background:" ++ String.intercalate "," layers ++ ";"]

/-- `pushStroke` from `utils/render.ts`. -/
def pushStroke (rules : List String) (strokes : List Stroke) : List String :=
  if strokes.isEmpty then rules
  else if 1 < strokes.length then rules
  else
    match strokes with
    | [] => rules
    | s :: _ =>
        if s.kind ≠ "solid" then rules
        else
          match s.color with
          | none => rules
          | some c =>
              if (match s.dashPattern with
                  | some ds => decide (0 < ds.length)
                  | none => false) then rules
              else if s.alignment = "CENTER" then
                rules ++ ["border:" ++ px s.width ++ " solid " ++ rgba c ++ ";"]
              else if s.alignment = "INSIDE" then
                rules ++ ["box-shadow:inset 0 0 0 " ++ px s.width ++ " " ++
                  rgba c ++ ";"]
              else if s.alignment = "OUTSIDE" then
                rules ++ ["box-shadow:0 0 0 " ++ px s.width ++ " " ++
                  rgba c ++ ";"]
              else rules

/-- One shadow of `pushEffects`. -/
def shadowStr (e : Effect) : String :=
  px (e.x.getD 0) ++ " " ++ px (e.y.getD 0) ++ " " ++ px (e.blur.getD 0) ++
    " " ++ px (e.spread.getD 0) ++ " " ++
    (match e.color with
     | some c => rgba c
     | none => "rgba(0,0,0,0.25)") ++
    (if e.type = "INNER_SHADOW" then " inset" else "")

/-- `pushEffects` from `utils/render.ts`: drop/inner shadows are joined
into a single `box-shadow` declaration. -/
def pushEffects (rules : List String) (effects : List Effect) : List String :=
  if effects.isEmpty then rules
  else
    let shadows := effects.filter fun e =>
      e.type = "DROP_SHADOW" ∨ e.type = "INNER_SHADOW"
    if shadows.isEmpty then rules
    else
      rules ++ ["box-shadow:" ++
        String.intercalate "," (shadows.map shadowStr) ++ ";"]

/-- `typographyRules` from `utils/render.ts`. -/
def typographyRules (t : Typography) : List String :=
  let fontFamily := t.fontFamily.trim
  ["font-family:" ++ fontFamily ++ ", system-ui, sans-serif;",
   "font-size:" ++ px t.fontSize ++ ";"] ++
  (if t.fontWeight ≠ 0 then ["font-weight:" ++ qToStr t.fontWeight ++ ";"]
   else []) ++
  (if t.lineHeightPx ≠ 0 then ["line-height:" ++ px t.lineHeightPx ++ ";"]
   else []) ++
  (if t.letterSpacing ≠ 0 then
    ["letter-spacing:" ++ px t.letterSpacing ++ ";"]
   else []) ++
  (if t.textAlignHorizontal ≠ "" then
    ["text-align:" ++
      (if t.textAlignHorizontal = "CENTER" then "center"
       else if t.textAlignHorizontal = "RIGHT" then "right"
       else if t.textAlignHorizontal = "JUSTIFIED" then "justify"
       else "left") ++ ";"]
   else []) ++
  (if t.textDecoration ≠ "" ∧ t.textDecoration ≠ "NONE" then
    ["text-decoration:" ++
      (if t.textDecoration = "UNDERLINE" then "underline"
       else if t.textDecoration = "STRIKETHROUGH" then "line-through"
       else "none") ++ ";"]
   else [])

/-- `cssForScaleMode` from `utils/render.ts`. -/
def cssForScaleMode (scale : String) : List String :=
  if scale = "FILL" then
    ["background-position:center;", "background-repeat:no-repeat;",
     "background-size:cover;"]
  else if scale = "FIT" then
    ["background-position:center;", "background-repeat:no-repeat;",
     "background-size:contain;"]
  else if scale = "TILE" then
    ["background-repeat:repeat;", "background-size:auto;"]
  else if scale = "CROP" then
    ["background-position:center;", "background-repeat:no-repeat;",
     "background-size:cover;", "overflow:hidden;"]
  else
    ["background-position:center;", "background-repeat:no-repeat;",
     "background-size:cover;"]

-- ---------------------------------------------------------------------------
-- Stylesheet emitter (`renderCSS.ts`)
-- ---------------------------------------------------------------------------

/-- One entry of the `ImageAssetMap` produced by the asset collaborator. -/
structure Asset where
  relativePath : String
  scaleMode : String

/-- `rgbaToCss` from `renderCSS.ts` (same 0..255 conversion as `rgba`). -/
def rgbaToCss (c : RGBA) : String :=
  "rgba(" ++ toString (jsRound (c.r * 255)) ++ "," ++
    toString (jsRound (c.g * 255)) ++ "," ++
    toString (jsRound (c.b * 255)) ++ "," ++
    jsNumToStr (clamp01 c.a) ++ ")"

/-- `applyTextColorFromFills` from `renderCSS.ts`: the first solid fill
becomes the text color. -/
def applyTextColorFromFills (rules : List String) (fills : List Fill) :
    List String :=
  if fills.isEmpty then rules
  else
    match fills.find? fun f => f.kind = "solid" with
    | some (.solid c) => rules ++ ["color:" ++ rgbaToCss c ++ ";"]
    | _ => rules

/-- The layout block of `buildStyles` (`renderCSS.ts`): only the
`absolute` and `flex` display modes emit layout declarations. -/
def layoutRules : LayoutModel → List String
  | .absolute x y w h =>
      ["position:absolute;left:" ++ px x ++ ";top:" ++ px y ++ ";",
       "width:" ++ px w ++ ";", "height:" ++ px h ++ ";"]
  | .flex direction padding gap align justify width height =>
      ["display:flex;", "position:relative;"] ++
      (if direction ≠ "" then ["flex-direction:" ++ direction ++ ";"]
       else []) ++
      ["gap:" ++ px gap ++ ";"] ++
      ["padding:" ++ px padding.top ++ " " ++ px padding.right ++ " " ++
        px padding.bottom ++ " " ++ px padding.left ++ ";"] ++
      (match align with
       | some al =>
           if al ≠ "" then
             ["align-items:" ++
               (if al = "start" then "flex-start"
                else if al = "end" then "flex-end"
                else al) ++ ";"]
           else []
       | none => []) ++
      (match justify with
       | some j =>
           if j ≠ "" then
             ["justify-content:" ++
               (if j = "start" then "flex-start"
                else if j = "end" then "flex-end"
                else j) ++ ";"]
           else []
       | none => []) ++
      ["width:" ++ px width ++ ";"] ++
      (match height with
       | .auto => ["height:auto;"]
       | .num h => ["height:" ++ px h ++ ";"])
  | .block _ _ => []

/-- The opacity step of `buildStyles`: emitted only when the opacity is
present and below 1, with the value clamped to [0,1]. -/
def opacityRules (o : Option ℚ) : List String :=
  match o with
  | some q =>
      if q < 1 then ["opacity:" ++ jsNumToStr (clamp01 (.fin q)) ++ ";"]
      else []
  | none => []

/-- The border-radius step of `buildStyles`. -/
def radiusRules : Option BorderRadius → List String
  | some (.uniform q) => ["border-radius:" ++ px q ++ ";"]
  | some (.corners tl tr br bl) =>
      ["border-radius:" ++ px tl ++ " " ++ px tr ++ " " ++ px br ++ " " ++
        px bl ++ ";"]
  | none => []

/-- The visual-style block of `buildStyles`: skipped entirely for SVG
nodes; text color for `html-text` nodes, background fills otherwise;
then strokes, effects, opacity and border radius. -/
def visualRules (node : ClassifiedNode) : List String :=
  if node.renderAs ≠ .svg then
    let r1 :=
      if node.renderAs = .htmlText then
        applyTextColorFromFills [] node.style.fills
      else pushFill [] node.style.fills
    let r2 := pushStroke r1 node.style.strokes
    let r3 := pushEffects r2 node.style.effects
    (r3 ++ opacityRules node.style.opacity) ++
      radiusRules node.style.borderRadius
  else []

/-- The typography block of `buildStyles`. -/
def typoRules (node : ClassifiedNode) : List String :=
  if node.renderAs = .htmlText then
    match node.style.typography with
    | some t => typographyRules t ++ ["white-space:pre-wrap;"]
    | none => []
  else []

/-- The image-asset block of `buildStyles`. -/
def imageRules (assets : String → Option Asset) (node : ClassifiedNode) :
    List String :=
  match assets node.id with
  | some a =>
      ["background-image:url(\"" ++ a.relativePath ++ "\");"] ++
        cssForScaleMode a.scaleMode
  | none => []

/-- All declarations of one node's rule block, in source order. -/
def nodeRules (assets : String → Option Asset) (node : ClassifiedNode) :
    List String :=
  layoutRules node.layout ++ visualRules node ++ typoRules node ++
    imageRules assets node

/-- The chunk pushed for one node (empty rule blocks are omitted). -/
def nodeChunk (assets : String → Option Asset) (node : ClassifiedNode) :
    List String :=
  let rules := nodeRules assets node
  if rules.isEmpty then []
  else ["." ++ cssClass node.id ++ "\x7b" ++ String.join rules ++ "\x7d"]

/-- `traverse`-order chunk collection of `buildStyles` (visit the node,
then its children left to right). -/
def styleChunks (assets : String → Option Asset) :
    ClassifiedNode → List String
  | .mk i n t l st tx sp r cs =>
      nodeChunk assets (.mk i n t l st tx sp r cs) ++
        (cs.attach.map fun c => styleChunks assets c.1).flatten
decreasing_by
  have h := List.sizeOf_lt_of_mem c.2
  simp only [ClassifiedNode.mk.sizeOf_spec]
  omega

/-- Unfolding equation for `styleChunks` in terms of a plain map. -/
theorem styleChunks_mk (assets : String → Option Asset) (i n : String)
    (t : RenderKind) (l : LayoutModel) (st : StyleModel)
    (tx : Option String) (sp : Option (List TextSpan)) (r : RenderAs)
    (cs : List ClassifiedNode) :
    styleChunks assets (.mk i n t l st tx sp r cs) =
      nodeChunk assets (.mk i n t l st tx sp r cs) ++
        (cs.map (styleChunks assets)).flatten := by
  rw [styleChunks]
  simp [List.attach_map_val]

/-- `buildStyles` from `renderCSS.ts`: traverse every frame collecting
rule chunks, prepend the global `:root` rule, join with newlines. -/
def buildStyles (rootFrames : List ClassifiedNode)
    (imageAssets : String → Option Asset) : String :=
  let chunks := (rootFrames.map (styleChunks imageAssets)).flatten
  String.intercalate "\n" (":root\x7bcolor-scheme:light;\x7d" :: chunks)

-- ---------------------------------------------------------------------------
-- Markup emitter (rich variant, `renderTextElement`)
-- ---------------------------------------------------------------------------

/-- `renderTextElement`: span-runs (if any) each become a `<span>` child
with an indexed class; otherwise the raw text is rendered directly.
Text is HTML-escaped and newlines become `<br/>`. -/
def renderTextElement (node : ClassifiedNode) (baseClass : String) : String :=
  let innerHtml :=
    match node.spans with
    | some spans =>
        if spans.isEmpty then brify (escapeHtml (node.text.getD ""))
        else
          String.join (spans.enum.map fun p =>
            "<span class=\"" ++ baseClass ++ "__span-" ++ toString p.1 ++
              "\">" ++ brify (escapeHtml p.2.text) ++ "</span>")
    | none => brify (escapeHtml (node.text.getD ""))
  "<p class=\"" ++ baseClass ++ "\">" ++ innerHtml ++ "</p>"

/-- `renderNode` from the markup emitter: text nodes delegate to
`renderTextElement`, SVG nodes become an `<img>` whose file name is
derived from the node id, containers wrap their children in a `<div>`. -/
def renderNode : ClassifiedNode → String
  | .mk i n t l st tx sp r cs =>
      let cls := cssClass i
      if r = .htmlText then
        renderTextElement (.mk i n t l st tx sp r cs) cls
      else if r = .svg then
        "<img class=\"" ++ cls ++ "\" src=\"./assets/" ++ safeId i ++
          ".svg\" alt=\"\" />"
      else
        "<div class=\"" ++ cls ++ "\">" ++
          String.join (cs.attach.map fun c => renderNode c.1) ++ "</div>"
decreasing_by
  have h := List.sizeOf_lt_of_mem c.2
  simp only [ClassifiedNode.mk.sizeOf_spec]
  omega

/-- Unfolding equation for `renderNode` in terms of a plain map. -/
theorem renderNode_mk (i n : String) (t : RenderKind) (l : LayoutModel)
    (st : StyleModel) (tx : Option String) (sp : Option (List TextSpan))
    (r : RenderAs) (cs : List ClassifiedNode) :
    renderNode (.mk i n t l st tx sp r cs) =
      (let cls := cssClass i
       if r = .htmlText then
         renderTextElement (.mk i n t l st tx sp r cs) cls
       else if r = .svg then
         "<img class=\"" ++ cls ++ "\" src=\"./assets/" ++ safeId i ++
           ".svg\" alt=\"\" />"
       else
         "<div class=\"" ++ cls ++ "\">" ++
           String.join (cs.map renderNode) ++ "</div>") := by
  rw [renderNode]
  simp [List.attach_map_val]

-- ---------------------------------------------------------------------------
-- Gradient-angle math (`mapGradientAngle` in `normalizedTree.ts`),
-- modelled over the reals
-- ---------------------------------------------------------------------------

section AngleMath

attribute [local instance] Classical.propDecidable

/-- JS truncated remainder by a positive divisor: `x % 360` truncates
the quotient towards zero. -/
noncomputable def rtrunc (x : ℝ) : ℤ :=
  if 0 ≤ x then ⌊x⌋ else ⌈x⌉

/-- JS `x % 360` on reals (truncated remainder). -/
noncomputable def jsRem360 (x : ℝ) : ℝ :=
  x - 360 * rtrunc (x / 360)

/-- Mathematical `x mod 360` (floored remainder), the normalization the
specification's formula refers to. -/
noncomputable def fmod360 (x : ℝ) : ℝ :=
  x - 360 * ⌊x / 360⌋

/-- JS `Math.atan2 (y, x)` on finite inputs. -/
noncomputable def atan2 (y x : ℝ) : ℝ :=
  if 0 < x then Real.arctan (y / x)
  else if x < 0 then
    (if 0 ≤ y then Real.arctan (y / x) + Real.pi
     else Real.arctan (y / x) - Real.pi)
  else
    (if 0 < y then Real.pi / 2
     else if y < 0 then -(Real.pi / 2)
     else 0)

/-- `mapGradientAngle` from `normalizedTree.ts`.  The transform is the
raw `gradientTransform`: `none` models a missing or non-array value;
a row entry of `none` models a non-number entry (a non-finite entry is
likewise modelled as malformed, floating-point NaN/∞ being outside this
embedding).  The first column `(a, b)` is the direction vector. -/
noncomputable def mapGradientAngle (t : Option (List (List (Option ℝ)))) :
    ℝ :=
  match t with
  | none => 0
  | some rows =>
      match rows with
      | row0 :: row1 :: _ =>
          if row0.length < 2 ∨ row1.length < 2 then 0
          else
            match row0.head?, row1.head? with
            | some (some a), some (some b) =>
                if a = 0 ∧ b = 0 then 0
                else
                  let angleRad := atan2 b a
                  let angleDeg := angleRad * 180 / Real.pi
                  let angleNorm :=
                    if angleDeg < 0 then angleDeg + 360 else angleDeg
                  let cssAngle := 90 - angleNorm
                  jsRem360 (jsRem360 cssAngle + 360)
            | _, _ => 0
      | _ => 0

/-- The emitted-angle formula as the specification words it: the
geometric angle is `atan2(dy, dx)` in degrees normalized to `[0, 360)`,
and the emitted angle is `((90 − geometric) mod 360 + 360) mod 360`,
with a degenerate direction vector yielding 0. -/
noncomputable def specGradientAngle (dx dy : ℝ) : ℝ :=
  if dx = 0 ∧ dy = 0 then 0
  else
    let geometric := fmod360 (atan2 dy dx * 180 / Real.pi)
    fmod360 (fmod360 (90 - geometric) + 360)

end AngleMath

/-- `buildIndexHtml`: the fixed document shell around the rendered
frames. -/
def buildIndexHtml (fileKey : String) (frames : List ClassifiedNode) :
    String :=
  let body := String.intercalate "\n" (frames.map renderNode)
  String.intercalate "\n"
    ["<!doctype html>",
     "<html lang=\"en\">",
     "<head>",
     "  <meta charset=\"utf-8\"/>",
     "  <meta name=\"viewport\" content=\"width=device-width,initial-scale=1\"/>",
     "  <title>" ++ escapeHtml fileKey ++ " — Generated</title>",
     "  <link rel=\"stylesheet\" href=\"./styles.css\"/>",
     "  <style>body\x7bmargin:0;position:relative;min-height:100vh;background:#fff\x7d</style>",
     "</head>",
     "<body>",
     body,
     "</body>",
     "</html>"]

-- ---------------------------------------------------------------------------
-- The pipeline composition of the convert route
-- ---------------------------------------------------------------------------

/-- The core pipeline as composed by the convert route: normalization,
then per-frame classification, then markup and stylesheet emission. -/
def runPipeline (ga : RawPaint → ℚ) (fileKey : String)
    (assets : String → Option Asset) (doc : RawNode) : String × String :=
  let normalized := normalizeFile ga doc
  let classifiedFrames := normalized.frames.map classifyTree
  (buildIndexHtml fileKey classifiedFrames,
    buildStyles classifiedFrames assets)

-- ---------------------------------------------------------------------------
-- Claims
-- ---------------------------------------------------------------------------

/-- Any stroke condition of rule 3 forces `needsSvgForStrokes`. -/
theorem needsSvgForStrokes_of_bad (strokes : List Stroke)
    (h : 1 < strokes.length ∨
      (∃ s, strokes = [s] ∧
        (s.kind ≠ "solid" ∨ s.alignment ≠ "CENTER" ∨
          (∃ ds, s.dashPattern = some ds ∧ ds ≠ [])))) :
    needsSvgForStrokes strokes = true := by
  rcases h with h | ⟨s, rfl, hcond⟩
  · cases strokes with
    | nil => simp at h
    | cons s1 t =>
        cases t with
        | nil => simp at h
        | cons s2 rest => simp [needsSvgForStrokes]
  · unfold needsSvgForStrokes
    simp only [List.isEmpty_cons, List.length_cons, List.length_nil]
    norm_num
    rcases hcond with hk | ha | ⟨ds, hds, hne⟩
    · simp [hk]
    · by_cases hk : s.kind = "solid" <;> simp [hk, ha]
    · by_cases hk : s.kind = "solid" <;>
        by_cases hal : s.alignment = "CENTER" <;>
          simp [hk, hal, hds, List.length_pos, hne]

/-- Claim C3: the classifier returns the image-fallback strategy
(`svg`) whenever the stroke list has more than one entry, or its single
stroke is not solid, or not center-aligned, or carries a non-empty dash
pattern — for text and non-text nodes alike, hence regardless of
fills. -/
theorem claim_C3 (node : NormalizedNode)
    (h : 1 < node.style.strokes.length ∨
      (∃ s, node.style.strokes = [s] ∧
        (s.kind ≠ "solid" ∨ s.alignment ≠ "CENTER" ∨
          (∃ ds, s.dashPattern = some ds ∧ ds ≠ [])))) :
    classifyNode node = .svg := by
  have hs := needsSvgForStrokes_of_bad node.style.strokes h
  unfold classifyNode
  simp [hs]

/-- A node carrying two solid center strokes (and no fills at all). -/
def c3Node : NormalizedNode :=
  .mk "3:1" "shape" .frame (.block 10 10)
    { fills := []
      strokes :=
        [⟨"solid", "CENTER", 1, some ⟨0, 0, 0, .fin 1⟩, none, none⟩,
         ⟨"solid", "CENTER", 2, some ⟨1, 1, 1, .fin 1⟩, none, none⟩]
      borderRadius := none, effects := [], typography := none
      opacity := some 1, blendMode := none, hasMask := false }
    none none []

/-- Witness for C3: the two-stroke node classifies as `svg`. -/
theorem claim_C3_witness : classifyNode c3Node = .svg :=
  claim_C3 c3Node (Or.inl (by decide))

/-- Claim C5: the classifier is total (always returns one of the three
strategies) and deterministic (a function of the node's kind and style
only), and the composed pipeline — normalization, classification,
emission — is deterministic: running it twice on the same input
produces identical markup and stylesheet text. -/
theorem claim_C5 :
    (∀ n : NormalizedNode,
      classifyNode n = .html ∨ classifyNode n = .htmlText ∨
        classifyNode n = .svg)
  ∧ (∀ n₁ n₂ : NormalizedNode, n₁.type = n₂.type → n₁.style = n₂.style →
      classifyNode n₁ = classifyNode n₂)
  ∧ (∀ (ga : RawPaint → ℚ) (fileKey : String)
        (assets : String → Option Asset) (doc : RawNode),
      runPipeline ga fileKey assets doc =
        runPipeline ga fileKey assets doc) := by
  refine ⟨fun n => ?_, fun n₁ n₂ h1 h2 => ?_, fun _ _ _ _ => rfl⟩
  · cases h : classifyNode n
    · exact Or.inl rfl
    · exact Or.inr (Or.inl rfl)
    · exact Or.inr (Or.inr rfl)
  · simp only [classifyNode, h1, h2]

/-- Two nodes identical in kind and style but differing elsewhere. -/
def c5NodeA : NormalizedNode :=
  .mk "5:1" "a" .frame (.block 1 2)
    ⟨[], [], none, [], none, some 1, none, false⟩ none none []

def c5NodeB : NormalizedNode :=
  .mk "5:2" "b" .frame (.absolute 0 0 3 4)
    ⟨[], [], none, [], none, some 1, none, false⟩ none none []

/-- Witness for C5: determinism applied at two concrete nodes with
equal (kind, style). -/
theorem claim_C5_witness : classifyNode c5NodeA = classifyNode c5NodeB :=
  claim_C5.2.1 c5NodeA c5NodeB rfl rfl

/-- Claim C6: an opacity declaration is emitted only when the node's
opacity is below 1, and its value is clamped to [0,1]; input −0.2 emits
`opacity:0;`, and input 1.5 emits no declaration (leaving the
stylesheet default opacity 1). -/
theorem claim_C6 :
    (∀ q : ℚ, q < 1 →
      opacityRules (some q) =
          ["opacity:" ++ qToStr (max 0 (min 1 q)) ++ ";"] ∧
        0 ≤ max 0 (min 1 q) ∧ max 0 (min 1 q) ≤ 1)
  ∧ (∀ q : ℚ, ¬ q < 1 → opacityRules (some q) = [])
  ∧ opacityRules none = []
  ∧ opacityRules (some (-(1/5))) = ["opacity:0;"]
  ∧ opacityRules (some (3/2)) = [] := by
  refine ⟨fun q hq => ⟨?_, le_max_left _ _, ?_⟩, fun q hq => ?_, rfl, ?_, ?_⟩
  · simp [opacityRules, hq, clamp01, jsNumToStr]
  · exact max_le (by norm_num) (min_le_left _ _)
  · simp [opacityRules, hq]
  · have h : (-(1/5) : ℚ) < 1 := by norm_num
    simp only [opacityRules, if_pos h, clamp01, jsNumToStr]
    norm_num
    rfl
  · have h : ¬ (3/2 : ℚ) < 1 := by norm_num
    simp [opacityRules, h]

/-- Witness for C6: the clamping branch applied at opacity 1/2. -/
theorem claim_C6_witness :
    opacityRules (some (1/2)) =
        ["opacity:" ++ qToStr (max 0 (min 1 (1/2))) ++ ";"] ∧
      0 ≤ max 0 (min 1 (1/2 : ℚ)) ∧ max 0 (min 1 (1/2 : ℚ)) ≤ 1 :=
  claim_C6.1 (1/2) (by norm_num)

/-- Folding string concatenation collects the character data. -/
theorem foldl_append_data (l : List String) :
    ∀ init : String,
      (l.foldl (· ++ ·) init).data = init.data ++ (l.map String.data).flatten := by
  induction l with
  | nil => intro init; simp
  | cons s rest ih =>
      intro init
      simp [List.foldl_cons, ih, String.data_append]

/-- The characters of a joined string list. -/
theorem join_data (l : List String) :
    (String.join l).data = (l.map String.data).flatten := by
  simpa [String.join] using foldl_append_data l ""

/-- No output of `escapeChar` contains a literal `<`, `>`, `"` or `'`. -/
theorem escapeChar_no_specials (c0 : Char) :
    ∀ c ∈ (escapeChar c0).data,
      c ≠ '<' ∧ c ≠ '>' ∧ c ≠ '"' ∧ c ≠ '\'' := by
  unfold escapeChar
  split_ifs with h1 h2 h3 h4 h5 <;> intro c hc
  · rw [show ("&amp;" : String).data = ['&', 'a', 'm', 'p', ';'] from rfl]
      at hc
    fin_cases hc <;> decide
  · rw [show ("&lt;" : String).data = ['&', 'l', 't', ';'] from rfl] at hc
    fin_cases hc <;> decide
  · rw [show ("&gt;" : String).data = ['&', 'g', 't', ';'] from rfl] at hc
    fin_cases hc <;> decide
  · rw [show ("&quot;" : String).data = ['&', 'q', 'u', 'o', 't', ';'] from
      rfl] at hc
    fin_cases hc <;> decide
  · rw [show ("&#039;" : String).data = ['&', '#', '0', '3', '9', ';'] from
      rfl] at hc
    fin_cases hc <;> decide
  · rw [show (String.singleton c0).data = [c0] from rfl] at hc
    simp at hc
    subst hc
    exact ⟨h2, h3, h4, h5⟩

/-- Claim C10: `escapeHtml` replaces each of `&`, `<`, `>`, `"`, `'`
with its character entity and keeps every other character, so its
output never contains a literal `<`, `>`, `"` or `'`. -/
theorem claim_C10 :
    (∀ s : String, ∀ c ∈ (escapeHtml s).data,
        c ≠ '<' ∧ c ≠ '>' ∧ c ≠ '"' ∧ c ≠ '\'')
  ∧ escapeChar '&' = "&amp;" ∧ escapeChar '<' = "&lt;"
  ∧ escapeChar '>' = "&gt;" ∧ escapeChar '"' = "&quot;"
  ∧ escapeChar '\'' = "&#039;"
  ∧ (∀ c : Char, c ≠ '&' → c ≠ '<' → c ≠ '>' → c ≠ '"' → c ≠ '\'' →
      escapeChar c = String.singleton c)
  ∧ escapeHtml "<a b=\"c\">&'x</a>" =
      "&lt;a b=&quot;c&quot;&gt;&amp;&#039;x&lt;/a&gt;" := by
  refine ⟨fun s c hc => ?_, rfl, rfl, rfl, rfl, rfl,
    fun c h1 h2 h3 h4 h5 => ?_, by decide⟩
  · unfold escapeHtml at hc
    rw [join_data] at hc
    rw [List.mem_flatten] at hc
    obtain ⟨l, hl, hcl⟩ := hc
    rw [List.map_map, List.mem_map] at hl
    obtain ⟨c0, _, rfl⟩ := hl
    exact escapeChar_no_specials c0 c hcl
  · simp [escapeChar, h1, h2, h3, h4, h5]

/-- Witness for C10: applied to a concrete string and character. -/
theorem claim_C10_witness :
    'a' ≠ '<' ∧ 'a' ≠ '>' ∧ 'a' ≠ '"' ∧ 'a' ≠ '\'' :=
  claim_C10.1 "<a>" 'a' (by decide)

/-- A sanitized id whose characters are all safe is unchanged. -/
theorem sanitizeId_safe (id : String)
    (h : ∀ c ∈ id.data, isSafeIdChar c = true) : sanitizeId id = id := by
  unfold sanitizeId
  have h2 : ∀ c ∈ id.data, (if isSafeIdChar c then c else '_') = c := by
    intro c hc
    simp [h c hc]
  rw [List.map_congr_left h2]
  exact congrArg String.mk (List.map_id _)

/-- Claim C8 (amended): the derived stylesheet class and SVG asset
address are pure functions of the node id alone (hence stable across
runs); they are injective on ids consisting only of safe characters
`[a-zA-Z0-9_-]`, but ids differing only in unsafe characters collide
(see the counterexample). -/
theorem claim_C8 :
    (∀ id : String, safeId id = sanitizeId id ∧
        cssClass id = "n-" ++ sanitizeId id ∧
        (sanitizeId id).data =
          id.data.map fun c => if isSafeIdChar c then c else '_')
  ∧ (∀ (i n : String) (t : RenderKind) (l : LayoutModel) (st : StyleModel)
        (tx : Option String) (sp : Option (List TextSpan))
        (cs : List ClassifiedNode),
      renderNode (.mk i n t l st tx sp .svg cs) =
        "<img class=\"" ++ cssClass i ++ "\" src=\"./assets/" ++
          safeId i ++ ".svg\" alt=\"\" />")
  ∧ (∀ id1 id2 : String, (∀ c ∈ id1.data, isSafeIdChar c = true) →
      (∀ c ∈ id2.data, isSafeIdChar c = true) →
      safeId id1 = safeId id2 → id1 = id2)
  ∧ (∀ id1 id2 : String, (∀ c ∈ id1.data, isSafeIdChar c = true) →
      (∀ c ∈ id2.data, isSafeIdChar c = true) →
      cssClass id1 = cssClass id2 → id1 = id2) := by
  refine ⟨fun id => ⟨rfl, rfl, rfl⟩, fun i n t l st tx sp cs => ?_,
    fun id1 id2 h1 h2 he => ?_, fun id1 id2 h1 h2 he => ?_⟩
  · rw [renderNode_mk]
    simp
  · rwa [safeId, safeId, sanitizeId_safe id1 h1, sanitizeId_safe id2 h2]
      at he
  · rw [cssClass, cssClass, sanitizeId_safe id1 h1, sanitizeId_safe id2 h2]
      at he
    have := congrArg String.data he
    rw [String.data_append, String.data_append] at this
    have h3 := List.append_cancel_left this
    cases id1
    cases id2
    exact congrArg String.mk h3

/-- Counterexample for C8 as frozen: the sanitizer is not injective —
the distinct ids `1:2` and `1;2` derive identical names. -/
theorem claim_C8_counterexample :
    safeId "1:2" = safeId "1;2" ∧ cssClass "1:2" = cssClass "1;2" ∧
      ("1:2" : String) ≠ "1;2" := by
  refine ⟨by decide, by decide, by decide⟩

/-- Witness for C8: injectivity on safe ids applied concretely. -/
theorem claim_C8_witness : ("node-1" : String) = "node-1" :=
  claim_C8.2.2.1 "node-1" "node-1" (by decide) (by decide) rfl

/-- `fillLayers` is the reverse-order rendering of its input. -/
theorem fillLayers_reverse (l : List Fill) :
    fillLayers l = l.reverse.filterMap fillLayerOpt := by
  induction l with
  | nil => rfl
  | cons f rest ih =>
      cases h : fillLayerOpt f <;>
        simp [fillLayers, ih, List.filterMap_append, List.filterMap_cons, h,
          Option.toList]

/-- Claim C2: for a non-text node not classified image-fallback, the
background layer list emitted by `pushFill` is the reverse of the fill
declaration order restricted to non-image fills; in particular fills
`[A solid, B linear-gradient]` emit B's layer before A's. -/
theorem claim_C2 :
    (∀ node : ClassifiedNode, node.type ≠ .text → node.renderAs ≠ .svg →
      fillLayers (node.style.fills.filter fun f => f.kind ≠ "image") =
        ((node.style.fills.filter fun f => f.kind ≠ "image").reverse).filterMap
          fillLayerOpt)
  ∧ (∀ (a : RGBA) (stops : List ColorStop) (ang : ℚ),
      fillLayers
          ([Fill.solid a, Fill.linearGradient stops ang].filter
            fun f => f.kind ≠ "image") =
        ["linear-gradient(" ++ qToStr ang ++ "deg, " ++
          gradientStopsToCss stops ++ ")", rgba a]
    ∧ pushFill [] [Fill.solid a, Fill.linearGradient stops ang] =
        ["background:" ++
          ("linear-gradient(" ++ qToStr ang ++ "deg, " ++
            gradientStopsToCss stops ++ ")" ++ "," ++ rgba a) ++ ";"]) := by
  constructor
  · intro node _ _
    exact fillLayers_reverse _
  · intro a stops ang
    constructor
    · rfl
    · rfl

/-- A non-text `html` node with a solid fill under a gradient fill. -/
def c2Node : ClassifiedNode :=
  .mk "2:1" "bg" .frame (.block 10 10)
    { fills :=
        [Fill.solid ⟨1, 0, 0, .fin 1⟩,
         Fill.linearGradient [⟨0, ⟨0, 0, 1, .fin 1⟩⟩] 90]
      strokes := [], borderRadius := none, effects := []
      typography := none, opacity := some 1, blendMode := none
      hasMask := false }
    none none .html []

/-- Witness for C2: the reverse law applied at a concrete node. -/
theorem claim_C2_witness :
    fillLayers (c2Node.style.fills.filter fun f => f.kind ≠ "image") =
      ((c2Node.style.fills.filter fun f => f.kind ≠ "image").reverse).filterMap
        fillLayerOpt :=
  claim_C2.1 c2Node (by decide) (by decide)

def c7Style : StyleModel :=
  ⟨[], [], none, [], none, some 1, none, false⟩

/-- Claim C7 (amended): a node rendered as text becomes a single `<p>`
element; with no style-runs its text (not its display name) is
HTML-escaped, newlines becoming `<br/>`, and rendered directly; with
one or more style-runs (not only "multiple") each run becomes its own
`<span>` child with an indexed derived class. -/
theorem claim_C7 :
    (∀ (i n : String) (t : RenderKind) (l : LayoutModel) (st : StyleModel)
        (tx : Option String) (cs : List ClassifiedNode),
      renderNode (.mk i n t l st tx none .htmlText cs) =
        "<p class=\"" ++ cssClass i ++ "\">" ++
          brify (escapeHtml (tx.getD "")) ++ "</p>")
  ∧ (∀ (i n : String) (t : RenderKind) (l : LayoutModel) (st : StyleModel)
        (tx : Option String) (spans : List TextSpan)
        (cs : List ClassifiedNode), spans ≠ [] →
      renderNode (.mk i n t l st tx (some spans) .htmlText cs) =
        "<p class=\"" ++ cssClass i ++ "\">" ++
          String.join (spans.enum.map fun p =>
            "<span class=\"" ++ cssClass i ++ "__span-" ++ toString p.1 ++
              "\">" ++ brify (escapeHtml p.2.text) ++ "</span>") ++
          "</p>")
  ∧ renderNode
      (.mk "7:1" "Heading" .text (.block 0 0) c7Style (some "a<b\nc") none
        .htmlText []) =
      "<p class=\"n-7_1\">a&lt;b<br/>c</p>" := by
  refine ⟨fun i n t l st tx cs => ?_, fun i n t l st tx spans cs h => ?_, ?_⟩
  · rw [renderNode_mk]
    simp [renderTextElement, ClassifiedNode.spans, ClassifiedNode.text]
  · cases spans with
    | nil => exact absurd rfl h
    | cons a rest =>
        rw [renderNode_mk]
        simp [renderTextElement, ClassifiedNode.spans, ClassifiedNode.text]
  · rw [renderNode_mk]
    rfl

/-- A text node carrying exactly one style-run. -/
def c7SpanNode : ClassifiedNode :=
  .mk "7:2" "t" .text (.block 0 0) c7Style (some "hello")
    (some [⟨"hello"⟩]) .htmlText []

/-- Counterexample for C7 as frozen: with exactly one style-run (not
"multiple"), the emitter still wraps the run in an inline `<span>`
child instead of rendering the text string directly. -/
theorem claim_C7_counterexample :
    renderNode c7SpanNode =
        "<p class=\"n-7_2\"><span class=\"n-7_2__span-0\">hello</span></p>"
      ∧ renderNode c7SpanNode ≠ "<p class=\"n-7_2\">hello</p>" := by
  have h : renderNode c7SpanNode =
      "<p class=\"n-7_2\"><span class=\"n-7_2__span-0\">hello</span></p>" := by
    show renderNode (.mk "7:2" "t" .text (.block 0 0) c7Style (some "hello")
      (some [⟨"hello"⟩]) .htmlText []) = _
    rw [renderNode_mk]
    rfl
  refine ⟨h, ?_⟩
  rw [h]
  decide

/-- Witness for C7: the span branch applied at a concrete one-run
node. -/
theorem claim_C7_witness :
    renderNode (.mk "7:3" "nm" .text (.block 0 0) c7Style (some "x")
        (some [⟨"hi"⟩]) .htmlText []) =
      "<p class=\"" ++ cssClass "7:3" ++ "\">" ++
        String.join (([⟨"hi"⟩] : List TextSpan).enum.map fun p =>
          "<span class=\"" ++ cssClass "7:3" ++ "__span-" ++ toString p.1 ++
            "\">" ++ brify (escapeHtml p.2.text) ++ "</span>") ++
        "</p>" :=
  claim_C7.2.1 "7:3" "nm" .text (.block 0 0) c7Style (some "x") [⟨"hi"⟩] []
    (by decide)

/-- A raw node record with every attribute absent. -/
def rawDataDefault : RawData :=
  ⟨none, none, none, none, none, none, none, none, none, none, none, none,
    none, none, none, none, none, none, none, none, none, none, none, none⟩

/-- A raw solid stroke entry with every numeric field absent. -/
def c9Paint : RawPaint :=
  { type := some "SOLID", visible := none, opacity := none, color := none
    gradientStops := none, imageRef := none, scaleMode := none
    gradientTransform := none, weight := none, strokeWeight := none
    width := none, alignment := none, dashPattern := none }

/-- Claim C9 (amended): `toNum` never fails — a missing field or one
whose JS numeric coercion is non-finite yields the fallback (node
opacity 1, stroke width 1, font size 14 at their call sites), while a
field that is already a finite number, or a non-number whose coercion
is finite, keeps that finite value; every result is a finite
rational. -/
theorem claim_C9 :
    (∀ fb : ℚ, toNum none fb = fb)
  ∧ (∀ fb : ℚ, toNum (some (.num .nan)) fb = fb ∧
      toNum (some (.num .inf)) fb = fb ∧
      toNum (some (.num .ninf)) fb = fb ∧
      toNum (some (.other .nan)) fb = fb)
  ∧ (∀ (v : Option JsVal) (fb : ℚ), toNum v fb = fb ∨
      ∃ q, (v = some (.num (.fin q)) ∨ v = some (.other (.fin q))) ∧
        toNum v fb = q)
  ∧ (mapStyle (fun _ => 0) rawDataDefault ([], NStats.zero)).1.opacity =
      some 1
  ∧ (mapTypography rawDataDefault).fontSize = 14
  ∧ (mapStrokes (fun _ => 0) [c9Paint] []).1 =
      [⟨"solid", "CENTER", 1, some ⟨0, 0, 0, .fin 1⟩, none, none⟩] := by
  refine ⟨fun fb => rfl, fun fb => ⟨rfl, rfl, rfl, rfl⟩, fun v fb => ?_,
    rfl, rfl, rfl⟩
  match v with
  | none => exact Or.inl rfl
  | some (.num (.fin q)) => exact Or.inr ⟨q, Or.inl rfl, rfl⟩
  | some (.num .nan) => exact Or.inl rfl
  | some (.num .inf) => exact Or.inl rfl
  | some (.num .ninf) => exact Or.inl rfl
  | some (.other (.fin q)) => exact Or.inr ⟨q, Or.inr rfl, rfl⟩
  | some (.other .nan) => exact Or.inl rfl
  | some (.other .inf) => exact Or.inl rfl
  | some (.other .ninf) => exact Or.inl rfl

/-- Counterexample for C9 as frozen: a non-numeric field whose JS
coercion is finite (e.g. the string "0.5") is NOT coerced to its
fallback — a raw opacity of `"0.5"` normalizes to opacity 1/2, not to
the default 1. -/
theorem claim_C9_counterexample :
    toNum (some (.other (.fin (1/2)))) 1 = 1/2 ∧ ((1 : ℚ)/2) ≠ 1 ∧
      (mapStyle (fun _ => 0)
          { rawDataDefault with opacity := some (.other (.fin (1/2))) }
          ([], NStats.zero)).1.opacity = some (1/2) := by
  refine ⟨rfl, by norm_num, rfl⟩

/-- All node ids occurring in a normalized tree (pre-order). -/
def collectIds : NormalizedNode → List String
  | .mk i _ _ _ _ _ _ cs =>
      i :: (cs.attach.map fun c => collectIds c.1).flatten
decreasing_by
  have h := List.sizeOf_lt_of_mem c.2
  simp only [NormalizedNode.mk.sizeOf_spec]
  omega

/-- Unfolding equation for `collectIds`. -/
theorem collectIds_mk (i n : String) (t : RenderKind) (l : LayoutModel)
    (st : StyleModel) (tx : Option String) (sp : Option (List TextSpan))
    (cs : List NormalizedNode) :
    collectIds (.mk i n t l st tx sp cs) =
      i :: (cs.map collectIds).flatten := by
  rw [collectIds]
  simp [List.attach_map_val]

/-- The raw ids reachable from a raw node through renderable-kind nodes
only: a node whose kind is not in the mapping table contributes nothing,
its whole subtree included. -/
def renderableIds : RawNode → List String
  | .mk d cs =>
      match mapType d with
      | none => []
      | some _ =>
          d.id.getD "" :: (cs.attach.map fun c => renderableIds c.1).flatten
decreasing_by
  have h := List.sizeOf_lt_of_mem c.2
  simp only [RawNode.mk.sizeOf_spec]
  omega

/-- Unfolding equation for `renderableIds`. -/
theorem renderableIds_mk (d : RawData) (cs : List RawNode) :
    renderableIds (.mk d cs) =
      match mapType d with
      | none => []
      | some _ => d.id.getD "" :: (cs.map renderableIds).flatten := by
  rw [renderableIds]
  cases mapType d <;> simp [List.attach_map_val]

/-- A raw node of unrenderable kind maps to `none` (after bumping the
total-node counter). -/
theorem toNormalized_none (ga : RawPaint → ℚ) (d : RawData)
    (cs : List RawNode) (pb : Option RawBox) (pm : String) (acc : AccT)
    (h : mapType d = none) :
    toNormalized ga (.mk d cs) pb pm acc =
      (none, (acc.1, { acc.2 with nodesTotal := acc.2.nodesTotal + 1 })) := by
  rw [toNormalized, h]

/-- Shape of `toNormalized` on a renderable raw node. -/
theorem toNormalized_some (ga : RawPaint → ℚ) (d : RawData)
    (cs : List RawNode) (pb : Option RawBox) (pm : String) (acc : AccT)
    (ty : RenderKind) (h : mapType d = some ty) :
    toNormalized ga (.mk d cs) pb pm acc =
      (some (.mk (d.id.getD "") (d.name.getD "") ty (mapLayout d pb pm)
          (mapStyle ga d
            ((acc.1 : List String),
              bumpKind ty { acc.2 with nodesTotal := acc.2.nodesTotal + 1 })).1
          (if ty = .text then some (d.characters.getD "") else none) none
          (toNormalizedChildren ga cs d.absoluteBoundingBox
            (d.layoutMode.getD "NONE")
            (mapStyle ga d
              ((acc.1 : List String),
                bumpKind ty
                  { acc.2 with
                      nodesTotal := acc.2.nodesTotal + 1 })).2).1),
        (toNormalizedChildren ga cs d.absoluteBoundingBox
          (d.layoutMode.getD "NONE")
          (mapStyle ga d
            ((acc.1 : List String),
              bumpKind ty
                { acc.2 with nodesTotal := acc.2.nodesTotal + 1 })).2).2) := by
  rw [toNormalized, h]

/-- Unfolding equation for the children walk. -/
theorem toNormalizedChildren_cons (ga : RawPaint → ℚ) (c : RawNode)
    (rest : List RawNode) (pb : Option RawBox) (pm : String) (acc : AccT) :
    toNormalizedChildren ga (c :: rest) pb pm acc =
      (match (toNormalized ga c pb pm acc).1 with
       | some node =>
           node ::
             (toNormalizedChildren ga rest pb pm
               (toNormalized ga c pb pm acc).2).1
       | none =>
           (toNormalizedChildren ga rest pb pm
             (toNormalized ga c pb pm acc).2).1,
        (toNormalizedChildren ga rest pb pm
          (toNormalized ga c pb pm acc).2).2) := by
  rw [toNormalizedChildren]

/-- Provenance of ids: everything in a normalized tree comes from a raw
node reachable through renderable kinds only. -/
theorem toNormalized_ids (ga : RawPaint → ℚ) (node : RawNode)
    (pb : Option RawBox) (pm : String) (acc : AccT) (n : NormalizedNode)
    (acc2 : AccT) (heq : toNormalized ga node pb pm acc = (some n, acc2)) :
    ∀ x ∈ collectIds n, x ∈ renderableIds node := by
  suffices H : ∀ (N : ℕ) (node : RawNode), sizeOf node < N →
      ∀ pb pm acc n acc2, toNormalized ga node pb pm acc = (some n, acc2) →
      ∀ x ∈ collectIds n, x ∈ renderableIds node by
    exact H (sizeOf node + 1) node (by omega) pb pm acc n acc2 heq
  intro N
  induction N with
  | zero => intro node h; exact absurd h (Nat.not_lt_zero _)
  | succ N ih =>
      intro node hlt pb pm acc n acc2 heq x hx
      obtain ⟨d, cs⟩ := node
      cases hmt : mapType d with
      | none =>
          rw [toNormalized_none ga d cs pb pm acc hmt] at heq
          simp at heq
      | some ty =>
          rw [toNormalized_some ga d cs pb pm acc ty hmt] at heq
          injection heq with h1 h2
          injection h1 with h1
          subst h1
          rw [collectIds_mk] at hx
          rw [renderableIds_mk, hmt]
          rcases List.mem_cons.mp hx with rfl | hx'
          · exact List.mem_cons_self _ _
          · rw [List.mem_flatten] at hx'
            obtain ⟨l, hl, hxl⟩ := hx'
            rw [List.mem_map] at hl
            obtain ⟨m, hm, rfl⟩ := hl
            have hszcs : ∀ c ∈ cs, sizeOf c < N := by
              intro c hcm
              have h1 := List.sizeOf_lt_of_mem hcm
              simp only [RawNode.mk.sizeOf_spec] at hlt
              omega
            have HQ : ∀ (cs2 : List RawNode), (∀ c ∈ cs2, sizeOf c < N) →
                ∀ pb2 pm2 acc0 m,
                  m ∈ (toNormalizedChildren ga cs2 pb2 pm2 acc0).1 →
                  ∃ c ∈ cs2, ∀ y ∈ collectIds m, y ∈ renderableIds c := by
              intro cs2
              induction cs2 with
              | nil =>
                  intro _ pb2 pm2 acc0 m hm2
                  rw [toNormalizedChildren] at hm2
                  simp at hm2
              | cons c rest ihl =>
                  intro hsz pb2 pm2 acc0 m hm2
                  rw [toNormalizedChildren_cons] at hm2
                  rcases hEc : toNormalized ga c pb2 pm2 acc0 with ⟨nc, accc⟩
                  rw [hEc] at hm2
                  cases nc with
                  | none =>
                      simp only at hm2
                      obtain ⟨c', hc', hsub⟩ :=
                        ihl (fun c h => hsz c (List.mem_cons_of_mem _ h))
                          pb2 pm2 accc m hm2
                      exact ⟨c', List.mem_cons_of_mem _ hc', hsub⟩
                  | some node1 =>
                      simp only at hm2
                      rcases List.mem_cons.mp hm2 with rfl | hm3
                      · refine ⟨c, List.mem_cons_self _ _, ?_⟩
                        intro y hy
                        exact ih c (hsz c (List.mem_cons_self _ _)) pb2 pm2
                          acc0 m accc hEc y hy
                      · obtain ⟨c', hc', hsub⟩ :=
                          ihl (fun c h => hsz c (List.mem_cons_of_mem _ h))
                            pb2 pm2 accc m hm3
                        exact ⟨c', List.mem_cons_of_mem _ hc', hsub⟩
            obtain ⟨c, hc, hsub⟩ := HQ cs hszcs _ _ _ m hm
            exact List.mem_cons_of_mem _
              (List.mem_flatten.mpr
                ⟨renderableIds c, List.mem_map_of_mem _ hc, hsub x hxl⟩)

def c4GrandData : RawData :=
  { rawDataDefault with id := some "grand", type := some "FRAME" }

def c4BadData : RawData :=
  { rawDataDefault with id := some "bad", type := some "WIDGET" }

def c4RootData : RawData :=
  { rawDataDefault with id := some "root", type := some "FRAME" }

def c4Grand : RawNode := .mk c4GrandData []

def c4Bad : RawNode := .mk c4BadData [c4Grand]

def c4Root : RawNode := .mk c4RootData [c4Bad]

def c4Page : RawNode :=
  .mk { rawDataDefault with id := some "page", type := some "CANVAS" }
    [c4Root]

def c4Doc : RawNode :=
  .mk { rawDataDefault with id := some "doc", type := some "DOCUMENT" }
    [c4Page]

/-- Claim C4: a raw node whose kind is not in the mapping table is
normalized to nothing; a dropped child contributes no entry to its
parent's child list (descendants are never promoted); every id in the
output comes from a raw node reachable through renderable kinds only;
and concretely, a valid grandchild below an unrecognized node is absent
from the whole output. -/
theorem claim_C4 :
    (∀ (ga : RawPaint → ℚ) (d : RawData) (cs : List RawNode) pb pm acc,
      mapType d = none → (toNormalized ga (.mk d cs) pb pm acc).1 = none)
  ∧ (∀ (ga : RawPaint → ℚ) c rest pb pm acc a,
      toNormalized ga c pb pm acc = (none, a) →
      (toNormalizedChildren ga (c :: rest) pb pm acc).1 =
        (toNormalizedChildren ga rest pb pm a).1)
  ∧ (∀ (ga : RawPaint → ℚ) node pb pm acc n acc2,
      toNormalized ga node pb pm acc = (some n, acc2) →
      ∀ x ∈ collectIds n, x ∈ renderableIds node)
  ∧ (normalizeFile (fun _ => 0) c4Doc).frames.map collectIds =
      [["root"]] := by
  refine ⟨fun ga d cs pb pm acc h => ?_, fun ga c rest pb pm acc a h => ?_,
    fun ga node pb pm acc n acc2 h => toNormalized_ids ga node pb pm acc n
      acc2 h, ?_⟩
  · rw [toNormalized_none ga d cs pb pm acc h]
  · rw [toNormalizedChildren_cons, h]
  · have hchild : ∀ acc : AccT,
        (toNormalizedChildren (fun _ => 0) [c4Bad] none "NONE" acc).1 =
          [] := by
      intro acc
      rw [toNormalizedChildren_cons,
        show c4Bad = RawNode.mk c4BadData [c4Grand] from rfl,
        toNormalized_none (fun _ => 0) c4BadData [c4Grand] none "NONE" acc
          rfl]
      rw [toNormalizedChildren]
    have hroot :
        (toNormalized (fun _ => 0) c4Root none "NONE"
            (([], NStats.zero) : AccT)).1 =
          some (.mk "root" "" .frame (mapLayout c4RootData none "NONE")
            (mapStyle (fun _ => 0) c4RootData
              (([], bumpKind .frame
                { NStats.zero with
                    nodesTotal := NStats.zero.nodesTotal + 1 }) : AccT)).1
            none none []) := by
      rw [show c4Root = RawNode.mk c4RootData [c4Bad] from rfl,
        toNormalized_some (fun _ => 0) c4RootData [c4Bad] none "NONE"
          (([], NStats.zero) : AccT) .frame rfl]
      rw [show c4RootData.absoluteBoundingBox = none from rfl,
        show c4RootData.layoutMode.getD "NONE" = "NONE" from rfl]
      rw [hchild]
      rfl
    show (normalizeFile (fun _ => 0) c4Doc).frames.map collectIds =
      [["root"]]
    rcases hE : toNormalized (fun _ => 0) c4Root none "NONE"
      (([], NStats.zero) : AccT) with ⟨nr, accr⟩
    have h1 : nr = some (.mk "root" "" .frame
        (mapLayout c4RootData none "NONE")
        (mapStyle (fun _ => 0) c4RootData
          (([], bumpKind .frame
            { NStats.zero with
                nodesTotal := NStats.zero.nodesTotal + 1 }) : AccT)).1
        none none []) := by
      have h2 := hroot
      rw [hE] at h2
      exact h2
    subst h1
    rw [normalizeFile]
    simp only [c4Doc, c4Page, RawNode.children, List.foldl_cons,
      List.foldl_nil, normalizePage]
    rw [show isRenderable c4Root = true from rfl]
    simp [hE, collectIds_mk]

/-- Witness for C4: an unrecognized-kind node normalizes to nothing. -/
theorem claim_C4_witness :
    (toNormalized (fun _ => 0)
        (.mk { rawDataDefault with id := some "w", type := some "WIDGET" }
          []) none "NONE" (([], NStats.zero) : AccT)).1 = none :=
  claim_C4.1 (fun _ => 0) _ [] none "NONE" (([], NStats.zero) : AccT) rfl

/-- `atan2` lands in `(-π, π]`. -/
theorem atan2_bounds (y x : ℝ) :
    -Real.pi < atan2 y x ∧ atan2 y x ≤ Real.pi := by
  have hpi := Real.pi_pos
  have h1 := Real.arctan_lt_pi_div_two (y / x)
  have h2 := Real.neg_pi_div_two_lt_arctan (y / x)
  unfold atan2
  split_ifs with hx hx2 hy hy2 hy3
  · constructor <;> linarith
  · have hyx : y / x ≤ 0 := div_nonpos_iff.mpr (Or.inl ⟨hy, hx2.le⟩)
    have h3 : Real.arctan (y / x) ≤ 0 := by
      have h4 := Real.arctan_strictMono.monotone hyx
      rwa [Real.arctan_zero] at h4
    constructor <;> linarith
  · push_neg at hy
    have hyx : 0 < y / x := div_pos_iff.mpr (Or.inr ⟨hy, hx2⟩)
    have h3 : 0 < Real.arctan (y / x) := by
      have h4 := Real.arctan_strictMono hyx
      rwa [Real.arctan_zero] at h4
    constructor <;> linarith
  · constructor <;> linarith
  · constructor <;> linarith
  · constructor <;> linarith

/-- The degree form of `atan2` lands in `(-180, 180]`. -/
theorem deg_bounds (y x : ℝ) :
    -180 < atan2 y x * 180 / Real.pi ∧
      atan2 y x * 180 / Real.pi ≤ 180 := by
  obtain ⟨hl, hu⟩ := atan2_bounds y x
  have hpi := Real.pi_pos
  constructor
  · rw [lt_div_iff₀ hpi]
    nlinarith
  · rw [div_le_iff₀ hpi]
    nlinarith

theorem floor360_zero {x : ℝ} (h0 : 0 ≤ x) (h1 : x < 360) :
    ⌊x / 360⌋ = 0 := by
  rw [Int.floor_eq_zero_iff, Set.mem_Ico]
  exact ⟨div_nonneg h0 (by norm_num), (div_lt_one (by norm_num)).mpr h1⟩

theorem floor360_negone {x : ℝ} (h0 : -360 ≤ x) (h1 : x < 0) :
    ⌊x / 360⌋ = -1 := by
  have h360 : (0 : ℝ) < 360 := by norm_num
  rw [Int.floor_eq_iff]
  refine ⟨?_, ?_⟩
  · push_cast
    rw [le_div_iff₀ h360]
    linarith
  · push_cast
    norm_num
    exact div_neg_of_neg_of_pos h1 h360

theorem floor360_one {x : ℝ} (h0 : 360 ≤ x) (h1 : x < 720) :
    ⌊x / 360⌋ = 1 := by
  have h360 : (0 : ℝ) < 360 := by norm_num
  rw [Int.floor_eq_iff]
  refine ⟨?_, ?_⟩
  · push_cast
    rw [le_div_iff₀ h360]
    linarith
  · push_cast
    rw [div_lt_iff₀ h360]
    linarith

theorem ceil360_zero {x : ℝ} (h0 : -360 < x) (h1 : x ≤ 0) :
    ⌈x / 360⌉ = 0 := by
  have h360 : (0 : ℝ) < 360 := by norm_num
  rw [Int.ceil_eq_iff]
  refine ⟨?_, ?_⟩
  · push_cast
    norm_num
    rw [neg_lt, ← neg_div]
    rw [div_lt_one h360]
    linarith
  · push_cast
    exact div_nonpos_iff.mpr (Or.inr ⟨h1, by norm_num⟩)

theorem fmod360_self {x : ℝ} (h0 : 0 ≤ x) (h1 : x < 360) :
    fmod360 x = x := by
  unfold fmod360
  rw [floor360_zero h0 h1]
  push_cast
  ring

theorem fmod360_of_neg {x : ℝ} (h0 : -360 ≤ x) (h1 : x < 0) :
    fmod360 x = x + 360 := by
  unfold fmod360
  rw [floor360_negone h0 h1]
  push_cast
  ring

theorem fmod360_of_big {x : ℝ} (h0 : 360 ≤ x) (h1 : x < 720) :
    fmod360 x = x - 360 := by
  unfold fmod360
  rw [floor360_one h0 h1]
  push_cast
  ring

theorem jsRem360_small {x : ℝ} (h0 : -360 < x) (h1 : x < 360) :
    jsRem360 x = x := by
  unfold jsRem360 rtrunc
  split_ifs with h
  · have hx0 : 0 ≤ x := by
      by_contra hneg
      push_neg at hneg
      have h2 := div_neg_of_neg_of_pos hneg (show (0 : ℝ) < 360 by norm_num)
      linarith
    rw [floor360_zero hx0 h1]
    push_cast
    ring
  · have hx0 : x < 0 := by
      by_contra hpos
      push_neg at hpos
      exact h (div_nonneg hpos (by norm_num))
    rw [ceil360_zero h0 hx0.le]
    push_cast
    ring

theorem jsRem360_big {x : ℝ} (h0 : 360 ≤ x) (h1 : x < 720) :
    jsRem360 x = x - 360 := by
  unfold jsRem360 rtrunc
  rw [if_pos (div_nonneg (by linarith) (by norm_num : (0:ℝ) ≤ 360))]
  rw [floor360_one h0 h1]
  push_cast
  ring

/-- On a geometric angle already normalized to `[0, 360)`, the source's
truncated-remainder normalization of `90 − g` agrees with the floored
`mod` of the specification's formula. -/
theorem cssAngle_eq {g : ℝ} (h0 : 0 ≤ g) (h1 : g < 360) :
    jsRem360 (jsRem360 (90 - g) + 360) =
      fmod360 (fmod360 (90 - g) + 360) := by
  by_cases hc : 0 ≤ 90 - g
  · have e1 : jsRem360 (90 - g) = 90 - g :=
      jsRem360_small (by linarith) (by linarith)
    have e2 : jsRem360 (90 - g + 360) = 90 - g + 360 - 360 :=
      jsRem360_big (by linarith) (by linarith)
    have e3 : fmod360 (90 - g) = 90 - g := fmod360_self hc (by linarith)
    have e4 : fmod360 (90 - g + 360) = 90 - g + 360 - 360 :=
      fmod360_of_big (by linarith) (by linarith)
    rw [e1, e2, e3, e4]
  · push_neg at hc
    have e1 : jsRem360 (90 - g) = 90 - g :=
      jsRem360_small (by linarith) (by linarith)
    have e2 : jsRem360 (90 - g + 360) = 90 - g + 360 :=
      jsRem360_small (by linarith) (by linarith)
    have e3 : fmod360 (90 - g) = 90 - g + 360 :=
      fmod360_of_neg (by linarith) hc
    have e4 : fmod360 (90 - g + 360 + 360) = 90 - g + 360 + 360 - 360 :=
      fmod360_of_big (by linarith) (by linarith)
    rw [e1, e2, e3, e4]
    ring

/-- The source's `if angleDeg < 0 then angleDeg + 360` normalization is
the floored `mod 360` on `(-180, 180]`. -/
theorem normDeg_eq {d : ℝ} (hl : -180 < d) (hu : d ≤ 180) :
    (if d < 0 then d + 360 else d) = fmod360 d := by
  split_ifs with h
  · rw [fmod360_of_neg (by linarith) h]
  · push_neg at h
    rw [fmod360_self h (by linarith)]

theorem normDeg_range {d : ℝ} (hl : -180 < d) (hu : d ≤ 180) :
    0 ≤ (if d < 0 then d + 360 else d) ∧
      (if d < 0 then d + 360 else d) < 360 := by
  split_ifs with h <;> constructor <;> linarith

/-- `mapGradientAngle` on a well-formed 2×3 transform with numeric
first column `(a, b)`. -/
theorem mapGradientAngle_cons (a b : ℝ) (e0 e1 : Option ℝ)
    (r0 r1 : List (Option ℝ)) (more : List (List (Option ℝ))) :
    mapGradientAngle
        (some ((some a :: e0 :: r0) :: (some b :: e1 :: r1) :: more)) =
      if a = 0 ∧ b = 0 then 0
      else
        jsRem360 (jsRem360 (90 -
          (if atan2 b a * 180 / Real.pi < 0 then
            atan2 b a * 180 / Real.pi + 360
           else atan2 b a * 180 / Real.pi)) + 360) := by
  rw [mapGradientAngle]
  rw [if_neg (by simp)]
  rfl

/-- The normalizer's gradient angle equals the specification formula on
every well-formed transform. -/
theorem mapGradientAngle_eq_spec (a b : ℝ) (e0 e1 : Option ℝ)
    (r0 r1 : List (Option ℝ)) (more : List (List (Option ℝ))) :
    mapGradientAngle
        (some ((some a :: e0 :: r0) :: (some b :: e1 :: r1) :: more)) =
      specGradientAngle a b := by
  rw [mapGradientAngle_cons]
  simp only [specGradientAngle]
  by_cases hz : a = 0 ∧ b = 0
  · rw [if_pos hz, if_pos hz]
  · rw [if_neg hz, if_neg hz]
    obtain ⟨hl, hu⟩ := deg_bounds b a
    rw [← normDeg_eq hl hu]
    exact cssAngle_eq (normDeg_range hl hu).1 (normDeg_range hl hu).2

theorem atan2_zero_one : atan2 0 1 = 0 := by
  unfold atan2
  rw [if_pos one_pos]
  norm_num [Real.arctan_zero]

theorem atan2_one_zero : atan2 1 0 = Real.pi / 2 := by
  unfold atan2
  rw [if_neg (lt_irrefl 0), if_neg (lt_irrefl 0), if_pos one_pos]

theorem specGradientAngle_right : specGradientAngle 1 0 = 90 := by
  have e0 : fmod360 0 = 0 := fmod360_self le_rfl (by norm_num)
  have e1 : fmod360 90 = 90 := fmod360_self (by norm_num) (by norm_num)
  have e2 : fmod360 450 = 90 := by
    rw [fmod360_of_big (by norm_num) (by norm_num)]
    norm_num
  simp only [specGradientAngle]
  rw [if_neg (by norm_num), atan2_zero_one]
  rw [show (0 : ℝ) * 180 / Real.pi = 0 by simp]
  rw [e0, show (90 : ℝ) - 0 = 90 by norm_num, e1,
    show (90 : ℝ) + 360 = 450 by norm_num, e2]

theorem specGradientAngle_up : specGradientAngle 0 1 = 0 := by
  have hdeg : Real.pi / 2 * 180 / Real.pi = 90 := by
    have hpi := Real.pi_ne_zero
    field_simp
    ring
  have e0 : fmod360 0 = 0 := fmod360_self le_rfl (by norm_num)
  have e1 : fmod360 90 = 90 := fmod360_self (by norm_num) (by norm_num)
  have e2 : fmod360 360 = 0 := by
    rw [fmod360_of_big (by norm_num) (by norm_num)]
    norm_num
  simp only [specGradientAngle]
  rw [if_neg (by norm_num), atan2_one_zero, hdeg, e1,
    show (90 : ℝ) - 90 = 0 by norm_num, e0,
    show (0 : ℝ) + 360 = 360 by norm_num, e2]

/-- Claim C1: for every fill whose 2×3 gradient transform has numeric
first column `(dx, dy)`, the produced angle equals
`((90 − deg(atan2(dy,dx)) normalized to [0,360)) mod 360 + 360) mod
360`; direction `(1,0)` yields 90, `(0,1)` yields 0, and a degenerate
direction or a missing/malformed transform yields 0. -/
theorem claim_C1 :
    (∀ (a b : ℝ) (e0 e1 : Option ℝ) (r0 r1 : List (Option ℝ))
        (more : List (List (Option ℝ))),
      mapGradientAngle
          (some ((some a :: e0 :: r0) :: (some b :: e1 :: r1) :: more)) =
        specGradientAngle a b)
  ∧ specGradientAngle 1 0 = 90
  ∧ specGradientAngle 0 1 = 0
  ∧ mapGradientAngle
      (some [[some 1, some 0, some 0], [some 0, some 1, some 0]]) = 90
  ∧ mapGradientAngle
      (some [[some 0, some 1, some 0], [some 1, some 0, some 0]]) = 0
  ∧ mapGradientAngle
      (some [[some 0, some 0, some 0], [some 0, some 1, some 0]]) = 0
  ∧ mapGradientAngle none = 0
  ∧ mapGradientAngle (some [[some 1]]) = 0
  ∧ mapGradientAngle
      (some [[none, some 0, some 0], [some 1, some 0, some 0]]) = 0 := by
  refine ⟨mapGradientAngle_eq_spec, specGradientAngle_right,
    specGradientAngle_up, ?_, ?_, ?_, ?_, ?_, ?_⟩
  · rw [mapGradientAngle_eq_spec]
    exact specGradientAngle_right
  · rw [mapGradientAngle_eq_spec]
    exact specGradientAngle_up
  · rw [mapGradientAngle_cons]
    rw [if_pos ⟨rfl, rfl⟩]
  · rfl
  · rfl
  · rfl

end Figma
